import Mathlib

/-! Shallow embedding of the platformer core in src/main.cpp: the tile
    grid, the axis-separated collision resolution, the player controller
    with gravity, jump and level-bounds enforcement, and the camera
    clamping of the main loop.  Floats are modelled as rationals, and the
    C++ float-to-int cast is modelled as truncation toward zero. -/

namespace Platformer

/-- Downward acceleration applied each frame (GRAVITY = 0.8f). -/
def GRAVITY : ℚ := 4 / 5

/-- Horizontal speed while a movement key is held (PLAYER_MOVE_SPEED = 5.0f). -/
def PLAYER_MOVE_SPEED : ℚ := 5

/-- Initial vertical velocity of a jump (PLAYER_JUMP_VELOCITY = -18.0f). -/
def PLAYER_JUMP_VELOCITY : ℚ := -18

/-- Side length of one square tile in pixels (TILE_SIZE = 40). -/
def TILE_SIZE : ℚ := 40

/-- Inward shrink applied to collision scan ranges (COLLISION_EPSILON = 0.01f). -/
def COLLISION_EPSILON : ℚ := 1 / 100

/-- A pair of pixel coordinates. -/
structure Vec2 where
  x : ℚ
  y : ℚ
deriving DecidableEq

/-- The tile kinds of the level grid. -/
inductive TileType where
  | Air : TileType
  | Solid : TileType
deriving DecidableEq

/-- Level data: the tile grid rows, the size in tiles, and the size in pixels. -/
structure Level where
  tiles : List (List TileType)
  sizeX : Nat
  sizeY : Nat
  sizePixels : Vec2
deriving DecidableEq

/-- Bounds-checked tile query: the stored tile inside the grid, Air outside. -/
def Level.getTile (level : Level) (x y : ℤ) : TileType :=
  if 0 ≤ x ∧ x < (level.sizeX : ℤ) ∧ 0 ≤ y ∧ y < (level.sizeY : ℤ) then
    (level.tiles.getD y.toNat []).getD x.toNat TileType.Air
  else
    TileType.Air

/-- Truncation toward zero, the semantics of the C++ float-to-int cast. -/
def ratTrunc (q : ℚ) : ℤ := if 0 ≤ q then ⌊q⌋ else ⌈q⌉

/-- The integers from a to b inclusive, in increasing order. -/
def intRange (a b : ℤ) : List ℤ :=
  (List.range (b + 1 - a).toNat).map (fun (i : ℕ) => a + (i : ℤ))

/-- Player state: centre position, box size, velocity, and grounded flag. -/
structure Player where
  pos : Vec2
  sizeX : ℚ
  sizeY : ℚ
  vel : Vec2
  isOnGround : Bool
deriving DecidableEq

/-- The player constructor: a box slightly smaller than one tile, with its
    centre at the given start position, at rest and not grounded. -/
def mkPlayer (startPos : Vec2) : Player :=
  { pos := startPos
    sizeX := TILE_SIZE * (4 / 5)
    sizeY := TILE_SIZE * (19 / 20)
    vel := ⟨0, 0⟩
    isOnGround := false }

/-- applyGravity: velocity.y += GRAVITY, unconditionally. -/
def Player.applyGravity (p : Player) : Player :=
  { p with vel := ⟨p.vel.x, p.vel.y + GRAVITY⟩ }

/-- jump: when grounded, set velocity.y to the jump velocity and leave the
    ground; otherwise do nothing. -/
def Player.jump (p : Player) : Player :=
  if p.isOnGround then
    { p with vel := ⟨p.vel.x, PLAYER_JUMP_VELOCITY⟩, isOnGround := false }
  else
    p

/-- Left column of the vertical collision scan range. -/
def Player.vertLeft (p : Player) : ℤ :=
  ratTrunc ((p.pos.x - p.sizeX / 2 + COLLISION_EPSILON) / TILE_SIZE)

/-- Right column of the vertical collision scan range. -/
def Player.vertRight (p : Player) : ℤ :=
  ratTrunc ((p.pos.x - p.sizeX / 2 + p.sizeX - COLLISION_EPSILON) / TILE_SIZE)

/-- Top row of the vertical scan range, on the bounds offset by velocity.y. -/
def Player.vertTop (p : Player) : ℤ :=
  ratTrunc ((p.pos.y - p.sizeY / 2 + p.vel.y + COLLISION_EPSILON) / TILE_SIZE)

/-- Bottom row of the vertical scan range, on the bounds offset by velocity.y. -/
def Player.vertBottom (p : Player) : ℤ :=
  ratTrunc ((p.pos.y - p.sizeY / 2 + p.vel.y + p.sizeY - COLLISION_EPSILON) / TILE_SIZE)

/-- The columns scanned by the vertical pass. -/
def Player.vertCols (p : Player) : List ℤ := intRange p.vertLeft p.vertRight

/-- Whether some scanned column triggers a vertical collision.  The C++
    loop breaks at the first matching column, and the correction it then
    applies does not depend on which column matched, so only existence
    matters; the two branch guards are disjoint in the sign of velocity.y. -/
def Player.vertHit (p : Player) (level : Level) : Prop :=
  ∃ c ∈ p.vertCols,
    (0 < p.vel.y ∧ level.getTile c p.vertBottom = TileType.Solid) ∨
    (p.vel.y < 0 ∧ level.getTile c p.vertTop = TileType.Solid)

instance (p : Player) (level : Level) : Decidable (p.vertHit level) := by
  unfold Player.vertHit
  infer_instance

/-- The vertical collision pass: land on a Solid tile below when falling,
    or bump against a Solid tile above when rising. -/
def Player.verticalPass (p : Player) (level : Level) : Player :=
  if p.vertHit level then
    if 0 < p.vel.y then
      { p with
          pos := ⟨p.pos.x, (p.vertBottom : ℚ) * TILE_SIZE - p.sizeY / 2⟩
          vel := ⟨p.vel.x, 0⟩
          isOnGround := true }
    else
      { p with
          pos := ⟨p.pos.x, ((p.vertTop : ℚ) + 1) * TILE_SIZE + p.sizeY / 2⟩
          vel := ⟨p.vel.x, 0⟩ }
  else
    p

/-- Left column of the horizontal scan range, offset by velocity.x. -/
def Player.horizLeft (p : Player) : ℤ :=
  ratTrunc ((p.pos.x - p.sizeX / 2 + p.vel.x + COLLISION_EPSILON) / TILE_SIZE)

/-- Right column of the horizontal scan range, offset by velocity.x. -/
def Player.horizRight (p : Player) : ℤ :=
  ratTrunc ((p.pos.x - p.sizeX / 2 + p.vel.x + p.sizeX - COLLISION_EPSILON) / TILE_SIZE)

/-- Top row of the horizontal scan range, on the current vertical bounds. -/
def Player.horizTop (p : Player) : ℤ :=
  ratTrunc ((p.pos.y - p.sizeY / 2 + COLLISION_EPSILON) / TILE_SIZE)

/-- Bottom row of the horizontal scan range, on the current vertical bounds. -/
def Player.horizBottom (p : Player) : ℤ :=
  ratTrunc ((p.pos.y - p.sizeY / 2 + p.sizeY - COLLISION_EPSILON) / TILE_SIZE)

/-- The rows scanned by the horizontal pass. -/
def Player.horizRows (p : Player) : List ℤ := intRange p.horizTop p.horizBottom

/-- Whether some scanned row triggers a horizontal collision; as in the
    vertical pass, the applied correction does not depend on the matched
    row, so only existence matters. -/
def Player.horizHit (p : Player) (level : Level) : Prop :=
  ∃ r ∈ p.horizRows,
    (0 < p.vel.x ∧ level.getTile p.horizRight r = TileType.Solid) ∨
    (p.vel.x < 0 ∧ level.getTile p.horizLeft r = TileType.Solid)

instance (p : Player) (level : Level) : Decidable (p.horizHit level) := by
  unfold Player.horizHit
  infer_instance

/-- The horizontal collision pass: stop against a Solid tile on the side
    the player is moving toward. -/
def Player.horizontalPass (p : Player) (level : Level) : Player :=
  if p.horizHit level then
    if 0 < p.vel.x then
      { p with
          pos := ⟨(p.horizRight : ℚ) * TILE_SIZE - p.sizeX / 2, p.pos.y⟩
          vel := ⟨0, p.vel.y⟩ }
    else
      { p with
          pos := ⟨((p.horizLeft : ℚ) + 1) * TILE_SIZE + p.sizeX / 2, p.pos.y⟩
          vel := ⟨0, p.vel.y⟩ }
  else
    p

/-- handleCollision: the grounded flag is cleared, the vertical pass runs,
    then the horizontal pass runs on the vertically corrected position. -/
def Player.handleCollision (p : Player) (level : Level) : Player :=
  (Player.verticalPass { p with isOnGround := false } level).horizontalPass level

/-- The fixed reset position used when the player falls out of the world. -/
def respawnPoint (level : Level) : Vec2 :=
  ⟨TILE_SIZE * (3 / 2), TILE_SIZE * ((level.sizeY : ℚ) - 3)⟩

/-- handleLevelBounds: clamp against the left, right and top level edges,
    and perform the fall-through reset past the bottom edge.  All four
    guards read the position captured before any of them ran, exactly as
    the C++ reads the playerPos local captured at entry. -/
def Player.handleLevelBounds (p : Player) (level : Level) : Player :=
  let px := p.pos.x
  let py := p.pos.y
  let hx := p.sizeX / 2
  let hy := p.sizeY / 2
  let p1 := if px - hx < 0 then { p with pos := ⟨hx, py⟩, vel := ⟨0, p.vel.y⟩ } else p
  let p2 :=
    if level.sizePixels.x < px + hx then
      { p1 with pos := ⟨level.sizePixels.x - hx, py⟩, vel := ⟨0, p1.vel.y⟩ }
    else p1
  let p3 :=
    if py - hy < 0 then
      { p2 with pos := ⟨px, hy⟩, vel := ⟨p2.vel.x, 0⟩ }
    else p2
  if level.sizePixels.y < py + hy then
    { p3 with pos := respawnPoint level, vel := ⟨0, 0⟩, isOnGround := false }
  else p3

/-- updatePosition: move the shape by the current velocity. -/
def Player.updatePosition (p : Player) : Player :=
  { p with pos := ⟨p.pos.x + p.vel.x, p.pos.y + p.vel.y⟩ }

/-- One tick of the update phase of the game loop, in the order the loop
    body calls it: gravity, tile collision, level-bounds enforcement, then
    the position update. -/
def tick (level : Level) (p : Player) : Player :=
  (((p.applyGravity).handleCollision level).handleLevelBounds level).updatePosition

/-- Whether the fall-through reset fires during a tick started from p: the
    guard of the reset branch, evaluated on the state handleLevelBounds
    observes this tick. -/
def tickResets (level : Level) (p : Player) : Prop :=
  level.sizePixels.y <
    ((p.applyGravity).handleCollision level).pos.y +
      ((p.applyGravity).handleCollision level).sizeY / 2

instance (level : Level) (p : Player) : Decidable (tickResets level p) := by
  unfold tickResets
  infer_instance

/-- The start position the player is constructed at in main. -/
def playerStartPos (level : Level) : Vec2 :=
  ⟨TILE_SIZE * (3 / 2), TILE_SIZE * ((level.sizeY : ℚ) - 3)⟩

/-- The C++ std clamp of a value to a closed interval. -/
def cppClamp (v lo hi : ℚ) : ℚ :=
  if v < lo then lo else if hi < v then hi else v

/-- One axis of the view-centre clamping done each frame by the main loop:
    the bounds keep the viewport inside the level, and collapse to the
    level midpoint when the level is smaller than the viewport. -/
def centerAxis (posA viewExt levelExt : ℚ) : ℚ :=
  let lo := if levelExt < viewExt then levelExt / 2 else viewExt / 2
  let hi := if levelExt < viewExt then levelExt / 2 else levelExt - viewExt / 2
  cppClamp posA lo hi

/-- The clamped view centre computed each frame from the player position. -/
def computeViewCenter (level : Level) (viewSize playerPos : Vec2) : Vec2 :=
  ⟨centerAxis playerPos.x viewSize.x level.sizePixels.x,
   centerAxis playerPos.y viewSize.y level.sizePixels.y⟩

/-- Write one tile of the grid. -/
def setTile (t : List (List TileType)) (y x : Nat) (v : TileType) :
    List (List TileType) :=
  t.set y ((t.getD y []).set x v)

/-- Write a horizontal run of n Solid tiles in row y starting at column x0. -/
def setRowRange (t : List (List TileType)) (y x0 n : Nat) :
    List (List TileType) :=
  (List.range n).foldl (fun acc i => setTile acc y (x0 + i) TileType.Solid) t

/-- Write a vertical run of n Solid tiles in column x starting at row y0. -/
def setColRange (t : List (List TileType)) (x y0 n : Nat) :
    List (List TileType) :=
  (List.range n).foldl (fun acc i => setTile acc (y0 + i) x TileType.Solid) t

/-- The hardcoded demo level built by createSimpleLevel: a 40 by 15 grid
    with a full floor row, several platforms, and three walls. -/
def createSimpleLevel : Level :=
  let t0 := List.replicate 15 (List.replicate 40 TileType.Air)
  let t1 := setRowRange t0 14 0 40
  let t2 := setRowRange t1 10 5 5
  let t3 := setRowRange t2 8 12 4
  let t4 := setTile t3 6 15 TileType.Solid
  let t5 := setTile t4 6 16 TileType.Solid
  let t6 := setRowRange t5 10 25 5
  let t7 := setRowRange t6 7 32 4
  let t8 := setTile t7 12 21 TileType.Solid
  let t9 := setTile t8 12 22 TileType.Solid
  let t10 := setColRange t9 2 11 3
  let t11 := setColRange t10 18 6 5
  let t12 := setColRange t11 38 8 6
  { tiles := t12
    sizeX := 40
    sizeY := 15
    sizePixels := ⟨(40 : ℚ) * TILE_SIZE, (15 : ℚ) * TILE_SIZE⟩ }

/-- A level with the same dimensions as the demo level but no solid tiles:
    the grid used by the fall-through scenario, where there is no ground
    beneath the player. -/
def emptyLevel : Level :=
  { tiles := List.replicate 15 (List.replicate 40 TileType.Air)
    sizeX := 40
    sizeY := 15
    sizePixels := ⟨(40 : ℚ) * TILE_SIZE, (15 : ℚ) * TILE_SIZE⟩ }

/-- The fall-through scenario: the freshly constructed player at the start
    position, ticked repeatedly over the level with no ground beneath. -/
def fallScenario : Nat → Player
  | 0 => mkPlayer (playerStartPos emptyLevel)
  | n + 1 => tick emptyLevel (fallScenario n)

/-- A level with no tiles at all: the zero by zero grid. -/
def zeroLevel : Level :=
  { tiles := [], sizeX := 0, sizeY := 0, sizePixels := ⟨0, 0⟩ }

/-! Helper lemmas about the embedding. -/

lemma mem_intRange {x a b : ℤ} : x ∈ intRange a b ↔ a ≤ x ∧ x ≤ b := by
  unfold intRange
  rw [List.mem_map]
  constructor
  · rintro ⟨i, hi, rfl⟩
    rw [List.mem_range] at hi
    omega
  · rintro ⟨h1, h2⟩
    refine ⟨(x - a).toNat, ?_, ?_⟩
    · rw [List.mem_range]
      omega
    · omega

lemma emptyLevel_getTile (x y : ℤ) : emptyLevel.getTile x y = TileType.Air := by
  unfold Level.getTile emptyLevel
  split
  · simp only [List.getD, List.get?_eq_getElem?, List.getElem?_replicate]
    split
    · simp only [Option.getD_some, List.get?_eq_getElem?, List.getElem?_replicate]
      split <;> rfl
    · rfl
  · rfl

lemma not_vertHit_emptyLevel (p : Player) : ¬ p.vertHit emptyLevel := by
  rintro ⟨c, hc, ⟨hv, h⟩ | ⟨hv, h⟩⟩ <;> rw [emptyLevel_getTile] at h <;> cases h

lemma not_horizHit_emptyLevel (p : Player) : ¬ p.horizHit emptyLevel := by
  rintro ⟨r, hr, ⟨hv, h⟩ | ⟨hv, h⟩⟩ <;> rw [emptyLevel_getTile] at h <;> cases h

lemma handleCollision_emptyLevel (p : Player) :
    p.handleCollision emptyLevel = { p with isOnGround := false } := by
  unfold Player.handleCollision Player.verticalPass Player.horizontalPass
  rw [if_neg (not_vertHit_emptyLevel _), if_neg (not_horizHit_emptyLevel _)]

lemma horizontalPass_preserve (p : Player) (level : Level) :
    (p.horizontalPass level).pos.y = p.pos.y ∧
    (p.horizontalPass level).vel.y = p.vel.y ∧
    (p.horizontalPass level).isOnGround = p.isOnGround ∧
    (p.horizontalPass level).sizeX = p.sizeX ∧
    (p.horizontalPass level).sizeY = p.sizeY := by
  unfold Player.horizontalPass
  split
  · split <;> exact ⟨rfl, rfl, rfl, rfl, rfl⟩
  · exact ⟨rfl, rfl, rfl, rfl, rfl⟩

lemma handleLevelBounds_id (p : Player) (level : Level)
    (h1 : ¬ (p.pos.x - p.sizeX / 2 < 0))
    (h2 : ¬ (level.sizePixels.x < p.pos.x + p.sizeX / 2))
    (h3 : ¬ (p.pos.y - p.sizeY / 2 < 0))
    (h4 : ¬ (level.sizePixels.y < p.pos.y + p.sizeY / 2)) :
    p.handleLevelBounds level = p := by
  simp only [Player.handleLevelBounds]
  rw [if_neg h1, if_neg h2, if_neg h3, if_neg h4]

lemma handleLevelBounds_reset (p : Player) (level : Level)
    (h : level.sizePixels.y < p.pos.y + p.sizeY / 2) :
    (p.handleLevelBounds level).pos = respawnPoint level ∧
    (p.handleLevelBounds level).vel = (⟨0, 0⟩ : Vec2) ∧
    (p.handleLevelBounds level).isOnGround = false ∧
    (p.handleLevelBounds level).sizeX = p.sizeX ∧
    (p.handleLevelBounds level).sizeY = p.sizeY := by
  simp only [Player.handleLevelBounds]
  rw [if_pos h]
  refine ⟨rfl, rfl, rfl, ?_, ?_⟩ <;> split_ifs <;> rfl

lemma handleLevelBounds_inX (p : Player) (level : Level)
    (hfit : p.sizeX ≤ level.sizePixels.x)
    (h3 : ¬ (p.pos.y - p.sizeY / 2 < 0))
    (h4 : ¬ (level.sizePixels.y < p.pos.y + p.sizeY / 2)) :
    0 ≤ (p.handleLevelBounds level).pos.x - p.sizeX / 2 ∧
    (p.handleLevelBounds level).pos.x + p.sizeX / 2 ≤ level.sizePixels.x ∧
    (p.handleLevelBounds level).pos.y = p.pos.y := by
  simp only [Player.handleLevelBounds]
  rw [if_neg h3, if_neg h4]
  split_ifs with h1 h2
  · exact ⟨by linarith, by linarith, rfl⟩
  · exact ⟨by linarith, by linarith, rfl⟩
  · rename_i h2
    exact ⟨by linarith, by linarith, rfl⟩
  · push_neg at *
    exact ⟨by linarith, by linarith, rfl⟩

/-! The claims. -/

/-- Claim C8: the tile query is a total function: on every grid, the zero
    by zero grid included, any coordinate pair outside the grid bounds
    yields Air, the empty kind. -/
theorem getTile_out_of_bounds (level : Level) (x y : ℤ)
    (h : x < 0 ∨ (level.sizeX : ℤ) ≤ x ∨ y < 0 ∨ (level.sizeY : ℤ) ≤ y) :
    level.getTile x y = TileType.Air := by
  unfold Level.getTile
  rw [if_neg]
  rintro ⟨h1, h2, h3, h4⟩
  rcases h with h | h | h | h <;> omega

/-- Witness for the out-of-bounds tile query theorem, on the zero by zero
    grid at the origin. -/
theorem getTile_out_of_bounds_witness :
    ((0 : ℤ) < 0 ∨ ((zeroLevel.sizeX : ℤ) ≤ 0 ∨ ((0 : ℤ) < 0 ∨ (zeroLevel.sizeY : ℤ) ≤ 0))) ∧
    zeroLevel.getTile 0 0 = TileType.Air :=
  ⟨Or.inr (Or.inl (by decide)),
   getTile_out_of_bounds zeroLevel 0 0 (Or.inr (Or.inl (by decide)))⟩

/-- Claim C5: jump with grounded true sets velocity.y to the configured
    negative jump velocity and clears grounded, leaving position and
    velocity.x unchanged; jump with grounded false is a no-op, so a second
    immediate jump while airborne changes nothing. -/
theorem jump_spec (p : Player) :
    (p.isOnGround = true →
      p.jump.vel.y = PLAYER_JUMP_VELOCITY ∧ PLAYER_JUMP_VELOCITY < 0 ∧
      p.jump.vel.x = p.vel.x ∧ p.jump.pos = p.pos ∧
      p.jump.isOnGround = false ∧ p.jump.jump = p.jump) ∧
    (p.isOnGround = false → p.jump = p) := by
  constructor
  · intro h
    unfold Player.jump
    rw [if_pos h]
    refine ⟨rfl, by norm_num [PLAYER_JUMP_VELOCITY], rfl, rfl, rfl, ?_⟩
    rw [if_neg]
    simp
  · intro h
    unfold Player.jump
    rw [if_neg]
    simp [h]

/-- Witness for the jump theorem: a concrete grounded player jumps, and a
    concrete airborne player is unchanged. -/
theorem jump_spec_witness :
    (Player.jump ⟨⟨60, 480⟩, 32, 38, ⟨0, 0⟩, true⟩).vel.y = PLAYER_JUMP_VELOCITY ∧
    Player.jump ⟨⟨60, 480⟩, 32, 38, ⟨0, 0⟩, false⟩ = ⟨⟨60, 480⟩, 32, 38, ⟨0, 0⟩, false⟩ :=
  ⟨((jump_spec ⟨⟨60, 480⟩, 32, 38, ⟨0, 0⟩, true⟩).1 rfl).1,
   (jump_spec ⟨⟨60, 480⟩, 32, 38, ⟨0, 0⟩, false⟩).2 rfl⟩

/-- Claim C10: the fall-through respawn point coincides with the initial
    spawn position used in main, namely one and a half tiles in from the
    left and three tile rows above the bottom, which is the pixel point
    (60, 480) for the demo level. -/
theorem respawn_equals_start :
    respawnPoint createSimpleLevel = playerStartPos createSimpleLevel ∧
    respawnPoint createSimpleLevel =
      ⟨TILE_SIZE * (3 / 2), TILE_SIZE * ((createSimpleLevel.sizeY : ℚ) - 3)⟩ ∧
    respawnPoint createSimpleLevel = ⟨60, 480⟩ := by
  refine ⟨rfl, rfl, ?_⟩
  have h : createSimpleLevel.sizeY = 15 := rfl
  unfold respawnPoint
  rw [h]
  norm_num [TILE_SIZE, Vec2.mk.injEq]

/-- Claim C7: the view centre is the per-axis clamp of the player position
    to the band that keeps the viewport inside the level; when the level
    extent is below the viewport extent both bounds collapse to half the
    level extent, when they are equal the centre is pinned at half the
    level extent regardless of the player, and whenever the viewport fits
    in the level the viewport rectangle stays inside the level. -/
theorem camera_clamp_spec (level : Level) (viewSize playerPos : Vec2)
    (posA viewExt levelExt : ℚ) :
    computeViewCenter level viewSize playerPos =
      ⟨centerAxis playerPos.x viewSize.x level.sizePixels.x,
       centerAxis playerPos.y viewSize.y level.sizePixels.y⟩ ∧
    (levelExt < viewExt → centerAxis posA viewExt levelExt = levelExt / 2) ∧
    (levelExt = viewExt → centerAxis posA viewExt levelExt = levelExt / 2) ∧
    (viewExt ≤ levelExt →
      centerAxis posA viewExt levelExt =
        cppClamp posA (viewExt / 2) (levelExt - viewExt / 2) ∧
      0 ≤ centerAxis posA viewExt levelExt - viewExt / 2 ∧
      centerAxis posA viewExt levelExt + viewExt / 2 ≤ levelExt) := by
  refine ⟨rfl, ?_, ?_, ?_⟩
  · intro h
    simp only [centerAxis, cppClamp]
    rw [if_pos h, if_pos h]
    split_ifs <;> linarith
  · intro h
    have hn : ¬ levelExt < viewExt := by linarith
    simp only [centerAxis, cppClamp]
    rw [if_neg hn, if_neg hn]
    split_ifs <;> linarith
  · intro h
    have hn : ¬ levelExt < viewExt := by linarith
    simp only [centerAxis, cppClamp]
    rw [if_neg hn, if_neg hn]
    refine ⟨rfl, ?_⟩
    split_ifs <;> constructor <;> linarith

/-- Witness for the camera theorem: at equal extents the centre is pinned
    at the midpoint, and with the viewport inside the level the centre is
    the plain clamp. -/
theorem camera_clamp_spec_witness :
    ((10 : ℚ) ≤ 10) ∧
    centerAxis 3 10 10 = cppClamp 3 (10 / 2) (10 - 10 / 2) ∧
    centerAxis 7 10 10 = 10 / 2 :=
  ⟨by norm_num,
   ((camera_clamp_spec zeroLevel ⟨0, 0⟩ ⟨0, 0⟩ 3 10 10).2.2.2 (by norm_num)).1,
   (camera_clamp_spec zeroLevel ⟨0, 0⟩ ⟨0, 0⟩ 7 10 10).2.2.1 rfl⟩

/-- Claim C1: a falling box whose predicted bottom row is a Solid row it
    lies fully above is snapped so its bottom edge rests exactly on that
    top edge of that row, velocity.y becomes zero, and grounded becomes true. -/
theorem landing_snaps (level : Level) (p : Player) (r : ℤ)
    (hv : 0 < p.vel.y)
    (habove : p.pos.y - p.sizeY / 2 + p.sizeY ≤ (r : ℚ) * TILE_SIZE)
    (hcross : p.vertBottom = r)
    (hne : p.vertLeft ≤ p.vertRight)
    (hrow : ∀ c ∈ p.vertCols, level.getTile c r = TileType.Solid) :
    (p.handleCollision level).pos.y + (p.handleCollision level).sizeY / 2 =
      (r : ℚ) * TILE_SIZE ∧
    (p.handleCollision level).vel.y = 0 ∧
    (p.handleCollision level).isOnGround = true := by
  have hmem : p.vertLeft ∈ p.vertCols := mem_intRange.mpr ⟨le_refl _, hne⟩
  have hsolid : level.getTile p.vertLeft p.vertBottom = TileType.Solid := by
    rw [hcross]
    exact hrow _ hmem
  have hhit : Player.vertHit { p with isOnGround := false } level :=
    ⟨p.vertLeft, hmem, Or.inl ⟨hv, hsolid⟩⟩
  have hstep : Player.verticalPass { p with isOnGround := false } level =
      { p with
          pos := ⟨p.pos.x, (p.vertBottom : ℚ) * TILE_SIZE - p.sizeY / 2⟩
          vel := ⟨p.vel.x, 0⟩
          isOnGround := true } := by
    unfold Player.verticalPass
    split
    · rfl
    · rename_i hneg
      exact absurd hhit hneg
  unfold Player.handleCollision
  rw [hstep]
  have hp := horizontalPass_preserve
    { p with
        pos := ⟨p.pos.x, (p.vertBottom : ℚ) * TILE_SIZE - p.sizeY / 2⟩
        vel := ⟨p.vel.x, 0⟩
        isOnGround := true } level
  rw [hp.1, hp.2.1, hp.2.2.1, hp.2.2.2.2]
  refine ⟨?_, rfl, rfl⟩
  dsimp only
  rw [hcross]
  ring

/-- Witness for the landing theorem: the demo-level floor row at a
    concrete falling player above column 1. -/
theorem landing_snaps_witness :
    (0 < (20 : ℚ)) ∧
    ((Player.handleCollision ⟨⟨60, 530⟩, 32, 38, ⟨0, 20⟩, false⟩ createSimpleLevel).pos.y +
        (Player.handleCollision ⟨⟨60, 530⟩, 32, 38, ⟨0, 20⟩, false⟩ createSimpleLevel).sizeY / 2 =
      ((14 : ℤ) : ℚ) * TILE_SIZE ∧
    (Player.handleCollision ⟨⟨60, 530⟩, 32, 38, ⟨0, 20⟩, false⟩ createSimpleLevel).vel.y = 0 ∧
    (Player.handleCollision ⟨⟨60, 530⟩, 32, 38, ⟨0, 20⟩, false⟩ createSimpleLevel).isOnGround = true) := by
  have hL : Player.vertLeft ⟨⟨60, 530⟩, 32, 38, ⟨0, 20⟩, false⟩ = 1 := by
    norm_num [Player.vertLeft, ratTrunc, TILE_SIZE, COLLISION_EPSILON]
  have hR : Player.vertRight ⟨⟨60, 530⟩, 32, 38, ⟨0, 20⟩, false⟩ = 1 := by
    norm_num [Player.vertRight, ratTrunc, TILE_SIZE, COLLISION_EPSILON]
  have hB : Player.vertBottom ⟨⟨60, 530⟩, 32, 38, ⟨0, 20⟩, false⟩ = 14 := by
    norm_num [Player.vertBottom, ratTrunc, TILE_SIZE, COLLISION_EPSILON]
  have hcols : Player.vertCols ⟨⟨60, 530⟩, 32, 38, ⟨0, 20⟩, false⟩ = [1] := by
    unfold Player.vertCols
    rw [hL, hR]
    decide
  refine ⟨by norm_num, landing_snaps createSimpleLevel _ 14 (by norm_num) ?_ hB ?_ ?_⟩
  · push_cast
    norm_num [TILE_SIZE]
  · rw [hL, hR]
  · intro c hc
    rw [hcols] at hc
    rw [List.mem_singleton] at hc
    subst hc
    decide

/-- Claim C9: collision resolution starts from grounded false and ends
    grounded exactly when a downward landing was confirmed in this call:
    velocity.y positive and some scanned column Solid at the predicted
    bottom row. -/
theorem grounded_iff_landing (level : Level) (p : Player) :
    (p.handleCollision level).isOnGround = true ↔
    (0 < p.vel.y ∧ ∃ c ∈ p.vertCols, level.getTile c p.vertBottom = TileType.Solid) := by
  unfold Player.handleCollision
  rw [(horizontalPass_preserve _ _).2.2.1]
  unfold Player.verticalPass
  split
  · rename_i hhit
    split
    · rename_i hv
      constructor
      · intro _
        refine ⟨hv, ?_⟩
        obtain ⟨c, hc, h | h⟩ := hhit
        · exact ⟨c, hc, h.2⟩
        · exact absurd h.1 (by linarith)
      · intro _
        rfl
    · rename_i hv
      constructor
      · intro hfalse
        exact absurd hfalse Bool.false_ne_true
      · rintro ⟨hv2, _⟩
        exact absurd hv2 hv
  · rename_i hhit
    constructor
    · intro hfalse
      exact absurd hfalse Bool.false_ne_true
    · rintro ⟨hv2, c, hc, hsolid⟩
      exact absurd ⟨c, hc, Or.inl ⟨hv2, hsolid⟩⟩ hhit

/-- Claim C6: a box moving horizontally into a Solid cell in its leading
    predicted column is stopped with its leading edge exactly on the
    column boundary, velocity.x is zeroed, and the horizontal pass leaves
    velocity.y and the vertical position unchanged. -/
theorem horizontal_stop (level : Level) (p : Player)
    (h : (0 < p.vel.x ∧ ∃ r ∈ p.horizRows, level.getTile p.horizRight r = TileType.Solid) ∨
         (p.vel.x < 0 ∧ ∃ r ∈ p.horizRows, level.getTile p.horizLeft r = TileType.Solid)) :
    (p.horizontalPass level).vel.x = 0 ∧
    (p.horizontalPass level).vel.y = p.vel.y ∧
    (p.horizontalPass level).pos.y = p.pos.y ∧
    (0 < p.vel.x →
      (p.horizontalPass level).pos.x + (p.horizontalPass level).sizeX / 2 =
        (p.horizRight : ℚ) * TILE_SIZE) ∧
    (p.vel.x < 0 →
      (p.horizontalPass level).pos.x - (p.horizontalPass level).sizeX / 2 =
        ((p.horizLeft : ℚ) + 1) * TILE_SIZE) := by
  have hhit : p.horizHit level := by
    rcases h with ⟨hv, r, hr, hs⟩ | ⟨hv, r, hr, hs⟩
    · exact ⟨r, hr, Or.inl ⟨hv, hs⟩⟩
    · exact ⟨r, hr, Or.inr ⟨hv, hs⟩⟩
  unfold Player.horizontalPass
  rw [if_pos hhit]
  split
  · rename_i hv
    refine ⟨rfl, rfl, rfl, fun _ => by dsimp only; ring, fun hneg => absurd hv (by linarith)⟩
  · rename_i hv
    refine ⟨rfl, rfl, rfl, fun hp2 => absurd hp2 hv, fun _ => by dsimp only; ring⟩

/-- Witness for the horizontal stop theorem: the demo-level wall at column
    18, hit by a concrete player moving right. -/
theorem horizontal_stop_witness :
    (0 < (10 : ℚ)) ∧
    ((Player.horizontalPass ⟨⟨700, 300⟩, 32, 38, ⟨10, 3⟩, false⟩ createSimpleLevel).vel.x = 0 ∧
     (Player.horizontalPass ⟨⟨700, 300⟩, 32, 38, ⟨10, 3⟩, false⟩ createSimpleLevel).vel.y = 3) := by
  have hT : Player.horizTop ⟨⟨700, 300⟩, 32, 38, ⟨10, 3⟩, false⟩ = 7 := by
    norm_num [Player.horizTop, ratTrunc, TILE_SIZE, COLLISION_EPSILON]
  have hBo : Player.horizBottom ⟨⟨700, 300⟩, 32, 38, ⟨10, 3⟩, false⟩ = 7 := by
    norm_num [Player.horizBottom, ratTrunc, TILE_SIZE, COLLISION_EPSILON]
  have hRt : Player.horizRight ⟨⟨700, 300⟩, 32, 38, ⟨10, 3⟩, false⟩ = 18 := by
    norm_num [Player.horizRight, ratTrunc, TILE_SIZE, COLLISION_EPSILON]
  have hrows : Player.horizRows ⟨⟨700, 300⟩, 32, 38, ⟨10, 3⟩, false⟩ = [7] := by
    unfold Player.horizRows
    rw [hT, hBo]
    decide
  have hmain := horizontal_stop createSimpleLevel ⟨⟨700, 300⟩, 32, 38, ⟨10, 3⟩, false⟩
    (Or.inl ⟨by norm_num, ⟨7, by rw [hrows]; exact List.mem_singleton.mpr rfl, by rw [hRt]; decide⟩⟩)
  exact ⟨by norm_num, hmain.1, hmain.2.1⟩

/-! Free-fall scenario lemmas over the groundless level. -/

lemma freefall_tick (y v : ℚ) (g : Bool) (h19 : 19 ≤ y) (h581 : y ≤ 581) :
    tick emptyLevel ⟨⟨60, y⟩, 32, 38, ⟨0, v⟩, g⟩ =
      ⟨⟨60, y + (v + GRAVITY)⟩, 32, 38, ⟨0, v + GRAVITY⟩, false⟩ := by
  unfold tick
  rw [show Player.applyGravity ⟨⟨60, y⟩, 32, 38, ⟨0, v⟩, g⟩ =
        ⟨⟨60, y⟩, 32, 38, ⟨0, v + GRAVITY⟩, g⟩ from rfl,
      handleCollision_emptyLevel]
  rw [handleLevelBounds_id]
  · norm_num [Player.updatePosition, Player.mk.injEq, Vec2.mk.injEq]
  · norm_num
  · norm_num [emptyLevel, TILE_SIZE]
  · dsimp only
    intro hcon
    linarith
  · dsimp only
    have hy : emptyLevel.sizePixels.y = 600 := by norm_num [emptyLevel, TILE_SIZE]
    rw [hy]
    intro hcon
    linarith

lemma freefall_tick_reset (y v : ℚ) (g : Bool) (h : 581 < y) :
    tick emptyLevel ⟨⟨60, y⟩, 32, 38, ⟨0, v⟩, g⟩ = mkPlayer (playerStartPos emptyLevel) := by
  unfold tick
  rw [show Player.applyGravity ⟨⟨60, y⟩, 32, 38, ⟨0, v⟩, g⟩ =
        ⟨⟨60, y⟩, 32, 38, ⟨0, v + GRAVITY⟩, g⟩ from rfl,
      handleCollision_emptyLevel]
  rw [show ({ (⟨⟨60, y⟩, 32, 38, ⟨0, v + GRAVITY⟩, g⟩ : Player) with isOnGround := false } : Player) =
        (⟨⟨60, y⟩, 32, 38, ⟨0, v + GRAVITY⟩, false⟩ : Player) from rfl]
  have hb := handleLevelBounds_reset ⟨⟨60, y⟩, 32, 38, ⟨0, v + GRAVITY⟩, false⟩ emptyLevel
    (by
      have hy : emptyLevel.sizePixels.y = 600 := by norm_num [emptyLevel, TILE_SIZE]
      rw [hy]
      dsimp only
      linarith)
  obtain ⟨hp, hv, hg, hsx, hsy⟩ := hb
  have hresp : respawnPoint emptyLevel = ⟨60, 480⟩ := by
    norm_num [respawnPoint, emptyLevel, TILE_SIZE, Vec2.mk.injEq]
  have hstart : mkPlayer (playerStartPos emptyLevel) =
      (⟨⟨60, 480⟩, 32, 38, ⟨0, 0⟩, false⟩ : Player) := by
    norm_num [mkPlayer, playerStartPos, emptyLevel, TILE_SIZE, Player.mk.injEq, Vec2.mk.injEq]
  unfold Player.updatePosition
  rw [hstart]
  simp [hp, hv, hg, hsx, hsy, hresp, Player.mk.injEq, Vec2.mk.injEq]

lemma tickResets_freefall (y v : ℚ) (g : Bool) :
    tickResets emptyLevel ⟨⟨60, y⟩, 32, 38, ⟨0, v⟩, g⟩ ↔ 581 < y := by
  unfold tickResets
  rw [show Player.applyGravity ⟨⟨60, y⟩, 32, 38, ⟨0, v⟩, g⟩ =
        ⟨⟨60, y⟩, 32, 38, ⟨0, v + GRAVITY⟩, g⟩ from rfl,
      handleCollision_emptyLevel]
  have hy : emptyLevel.sizePixels.y = 600 := by norm_num [emptyLevel, TILE_SIZE]
  rw [hy]
  dsimp only
  constructor <;> intro hcon <;> linarith

lemma fallScenario_closed : ∀ k : Nat, k ≤ 16 →
    fallScenario k =
      ⟨⟨60, 480 + 2 * (k : ℚ) * ((k : ℚ) + 1) / 5⟩, 32, 38, ⟨0, 4 * (k : ℚ) / 5⟩, false⟩ := by
  intro k
  induction k with
  | zero =>
    intro _
    show mkPlayer (playerStartPos emptyLevel) = _
    norm_num [mkPlayer, playerStartPos, emptyLevel, TILE_SIZE, Player.mk.injEq, Vec2.mk.injEq]
  | succ n ih =>
    intro hk
    have hn : n ≤ 16 := by omega
    have hc15 : (n : ℚ) ≤ 15 := by exact_mod_cast (by omega : n ≤ 15)
    have hc0 : (0 : ℚ) ≤ (n : ℚ) := Nat.cast_nonneg n
    have h19 : (19 : ℚ) ≤ 480 + 2 * (n : ℚ) * ((n : ℚ) + 1) / 5 := by nlinarith
    have h581 : 480 + 2 * (n : ℚ) * ((n : ℚ) + 1) / 5 ≤ 581 := by nlinarith
    have harith1 : 480 + 2 * (n : ℚ) * ((n : ℚ) + 1) / 5 + (4 * (n : ℚ) / 5 + GRAVITY) =
        480 + 2 * ((n : ℚ) + 1) * (((n : ℚ) + 1) + 1) / 5 := by
      unfold GRAVITY
      ring
    have harith2 : 4 * (n : ℚ) / 5 + GRAVITY = 4 * ((n : ℚ) + 1) / 5 := by
      unfold GRAVITY
      ring
    show tick emptyLevel (fallScenario n) = _
    rw [ih hn, freefall_tick _ _ _ h19 h581, harith1, harith2]
    push_cast
    rfl

/-- Claim C4: whenever the bottom edge of the box passes the bottom pixel
    boundary of the level, bounds enforcement performs the reset event:
    position goes to the fixed respawn point, velocity to zero, grounded
    to false; and in the free-fall scenario from the start position over
    the groundless level, the reset fires exactly once within the fall,
    namely at the first tick whose enforcement observes the bottom edge
    past the boundary, restoring the start position and zero velocity. -/
theorem fall_reset_event (level : Level) (p : Player)
    (h : level.sizePixels.y < p.pos.y + p.sizeY / 2) :
    ((p.handleLevelBounds level).pos = respawnPoint level ∧
     (p.handleLevelBounds level).vel = (⟨0, 0⟩ : Vec2) ∧
     (p.handleLevelBounds level).isOnGround = false) ∧
    ((∀ k, k < 16 → ¬ tickResets emptyLevel (fallScenario k)) ∧
     tickResets emptyLevel (fallScenario 16) ∧
     fallScenario 17 = fallScenario 0 ∧
     (fallScenario 17).pos = respawnPoint emptyLevel ∧
     (fallScenario 17).vel = (⟨0, 0⟩ : Vec2)) := by
  have hgen := handleLevelBounds_reset p level h
  have h16 := fallScenario_closed 16 le_rfl
  have h17 : fallScenario 17 = fallScenario 0 := by
    show tick emptyLevel (fallScenario 16) = fallScenario 0
    rw [h16, freefall_tick_reset]
    · rfl
    · push_cast
      norm_num
  refine ⟨⟨hgen.1, hgen.2.1, hgen.2.2.1⟩, ?_, ?_, h17, ?_, ?_⟩
  · intro k hk
    rw [fallScenario_closed k (by omega), tickResets_freefall]
    have hc15 : (k : ℚ) ≤ 15 := by exact_mod_cast (by omega : k ≤ 15)
    have hc0 : (0 : ℚ) ≤ (k : ℚ) := Nat.cast_nonneg k
    intro hcon
    nlinarith
  · rw [h16, tickResets_freefall]
    push_cast
    norm_num
  · rw [h17]
    rfl
  · rw [h17]
    rfl

/-- Witness for the reset theorem: a concrete player whose bottom edge is
    past the floor of the groundless level is reset. -/
theorem fall_reset_event_witness :
    emptyLevel.sizePixels.y < 700 + 38 / 2 ∧
    ((Player.handleLevelBounds ⟨⟨60, 700⟩, 32, 38, ⟨1, 2⟩, true⟩ emptyLevel).pos =
        respawnPoint emptyLevel ∧
     (Player.handleLevelBounds ⟨⟨60, 700⟩, 32, 38, ⟨1, 2⟩, true⟩ emptyLevel).vel =
        (⟨0, 0⟩ : Vec2) ∧
     (Player.handleLevelBounds ⟨⟨60, 700⟩, 32, 38, ⟨1, 2⟩, true⟩ emptyLevel).isOnGround = false) := by
  have hcond : emptyLevel.sizePixels.y < 700 + 38 / 2 := by
    norm_num [emptyLevel, TILE_SIZE]
  exact ⟨hcond, (fall_reset_event emptyLevel ⟨⟨60, 700⟩, 32, 38, ⟨1, 2⟩, true⟩ hcond).1⟩

/-- Counterexample to claim C3 as stated: on an input violating the left
    and top boundaries at once, the top clamp writes back the stale X read
    at entry, undoing the left clamp, and the resulting box still crosses
    the left boundary. -/
theorem level_bounds_clamp_counterexample :
    (Player.handleLevelBounds ⟨⟨-100, -100⟩, 32, 38, ⟨0, 0⟩, false⟩ emptyLevel).pos.x -
      (Player.handleLevelBounds ⟨⟨-100, -100⟩, 32, 38, ⟨0, 0⟩, false⟩ emptyLevel).sizeX / 2 < 0 := by
  norm_num [Player.handleLevelBounds, emptyLevel, TILE_SIZE, respawnPoint]

/-- Claim C3 amended: when the top boundary is not violated (and the box
    fits in the level width), enforcement leaves the box inside the level
    on X and zeroes velocity.x on any X clamp; when only the top boundary
    is violated, the top edge is clamped to zero and velocity.y is zeroed.
    When the top clamp fires together with an X clamp it restores the
    stale X captured at entry, so X containment can fail. -/
theorem level_bounds_clamp_amended (level : Level) (p : Player)
    (hfit : p.sizeX ≤ level.sizePixels.x)
    (hnr : ¬ (level.sizePixels.y < p.pos.y + p.sizeY / 2)) :
    (¬ (p.pos.y - p.sizeY / 2 < 0) →
      0 ≤ (p.handleLevelBounds level).pos.x - p.sizeX / 2 ∧
      (p.handleLevelBounds level).pos.x + p.sizeX / 2 ≤ level.sizePixels.x ∧
      (p.handleLevelBounds level).pos.y = p.pos.y ∧
      (p.pos.x - p.sizeX / 2 < 0 → (p.handleLevelBounds level).vel.x = 0) ∧
      (level.sizePixels.x < p.pos.x + p.sizeX / 2 → (p.handleLevelBounds level).vel.x = 0)) ∧
    (p.pos.y - p.sizeY / 2 < 0 →
      ¬ (p.pos.x - p.sizeX / 2 < 0) →
      ¬ (level.sizePixels.x < p.pos.x + p.sizeX / 2) →
      (p.handleLevelBounds level).pos = ⟨p.pos.x, p.sizeY / 2⟩ ∧
      (p.handleLevelBounds level).vel.y = 0 ∧
      (p.handleLevelBounds level).vel.x = p.vel.x) := by
  constructor
  · intro h3
    obtain ⟨ha, hb, hc⟩ := handleLevelBounds_inX p level hfit h3 hnr
    refine ⟨ha, hb, hc, ?_, ?_⟩
    all_goals
      intro hcl
      simp only [Player.handleLevelBounds]
      rw [if_neg h3, if_neg hnr]
      split_ifs <;> first | rfl | (exfalso; linarith)
  · intro h3 h1 h2
    simp only [Player.handleLevelBounds]
    rw [if_neg h1, if_neg h2, if_pos h3, if_neg hnr]
    exact ⟨rfl, rfl, rfl⟩

/-- Witness for the amended bounds theorem: a concrete player past the
    left boundary only is clamped back inside with velocity.x zeroed. -/
theorem level_bounds_clamp_amended_witness :
    ((32 : ℚ) ≤ emptyLevel.sizePixels.x) ∧
    (0 ≤ (Player.handleLevelBounds ⟨⟨-10, 300⟩, 32, 38, ⟨-5, 2⟩, false⟩ emptyLevel).pos.x - 32 / 2 ∧
     (Player.handleLevelBounds ⟨⟨-10, 300⟩, 32, 38, ⟨-5, 2⟩, false⟩ emptyLevel).pos.x + 32 / 2 ≤
        emptyLevel.sizePixels.x ∧
     (Player.handleLevelBounds ⟨⟨-10, 300⟩, 32, 38, ⟨-5, 2⟩, false⟩ emptyLevel).pos.y = 300 ∧
     ((-10 : ℚ) - 32 / 2 < 0 →
        (Player.handleLevelBounds ⟨⟨-10, 300⟩, 32, 38, ⟨-5, 2⟩, false⟩ emptyLevel).vel.x = 0) ∧
     (emptyLevel.sizePixels.x < -10 + 32 / 2 →
        (Player.handleLevelBounds ⟨⟨-10, 300⟩, 32, 38, ⟨-5, 2⟩, false⟩ emptyLevel).vel.x = 0)) := by
  have hfit : (32 : ℚ) ≤ emptyLevel.sizePixels.x := by norm_num [emptyLevel, TILE_SIZE]
  have hnr : ¬ (emptyLevel.sizePixels.y < (300 : ℚ) + 38 / 2) := by norm_num [emptyLevel, TILE_SIZE]
  exact ⟨hfit,
    (level_bounds_clamp_amended emptyLevel ⟨⟨-10, 300⟩, 32, 38, ⟨-5, 2⟩, false⟩ hfit hnr).1
      (by norm_num)⟩

/-- Counterexample to claim C2 as stated: the position update runs after
    bounds enforcement, so a tick started inside the level with rightward
    velocity and no tiles ahead ends with the box past the right level
    boundary. -/
theorem tick_end_out_of_bounds_counterexample :
    emptyLevel.sizePixels.x <
      (tick emptyLevel ⟨⟨1584, 300⟩, 32, 38, ⟨5, 0⟩, false⟩).pos.x +
      (tick emptyLevel ⟨⟨1584, 300⟩, 32, 38, ⟨5, 0⟩, false⟩).sizeX / 2 := by
  unfold tick
  rw [show Player.applyGravity ⟨⟨1584, 300⟩, 32, 38, ⟨5, 0⟩, false⟩ =
        ⟨⟨1584, 300⟩, 32, 38, ⟨5, 0 + GRAVITY⟩, false⟩ from rfl,
      handleCollision_emptyLevel]
  rw [handleLevelBounds_id]
  · norm_num [Player.updatePosition, emptyLevel, TILE_SIZE]
  · norm_num
  · norm_num [emptyLevel, TILE_SIZE]
  · norm_num
  · norm_num [emptyLevel, TILE_SIZE]

/-- Claim C2 amended: each tick runs gravity, then collision resolution,
    then level-bounds enforcement, and only then the position update;
    bounds enforcement therefore observes the pre-update position, its
    containment guarantee holds for the state it produces, and the final
    position of the tick is that state moved by its velocity. -/
theorem tick_order_amended (level : Level) (p : Player)
    (hfit : ((p.applyGravity).handleCollision level).sizeX ≤ level.sizePixels.x)
    (h3 : ¬ (((p.applyGravity).handleCollision level).pos.y -
              ((p.applyGravity).handleCollision level).sizeY / 2 < 0))
    (h4 : ¬ (level.sizePixels.y < ((p.applyGravity).handleCollision level).pos.y +
              ((p.applyGravity).handleCollision level).sizeY / 2)) :
    tick level p =
      Player.updatePosition
        (Player.handleLevelBounds ((p.applyGravity).handleCollision level) level) ∧
    (tick level p).pos.x =
      (Player.handleLevelBounds ((p.applyGravity).handleCollision level) level).pos.x +
      (Player.handleLevelBounds ((p.applyGravity).handleCollision level) level).vel.x ∧
    (tick level p).pos.y =
      (Player.handleLevelBounds ((p.applyGravity).handleCollision level) level).pos.y +
      (Player.handleLevelBounds ((p.applyGravity).handleCollision level) level).vel.y ∧
    0 ≤ (Player.handleLevelBounds ((p.applyGravity).handleCollision level) level).pos.x -
        ((p.applyGravity).handleCollision level).sizeX / 2 ∧
    (Player.handleLevelBounds ((p.applyGravity).handleCollision level) level).pos.x +
        ((p.applyGravity).handleCollision level).sizeX / 2 ≤ level.sizePixels.x := by
  obtain ⟨ha, hb, _⟩ :=
    handleLevelBounds_inX ((p.applyGravity).handleCollision level) level hfit h3 h4
  exact ⟨rfl, rfl, rfl, ha, hb⟩

/-- Witness for the amended tick theorem at a concrete mid-air player over
    the groundless level. -/
theorem tick_order_amended_witness :
    ((Player.applyGravity (mkPlayer ⟨60, 300⟩)).handleCollision emptyLevel).sizeX ≤
      emptyLevel.sizePixels.x ∧
    tick emptyLevel (mkPlayer ⟨60, 300⟩) =
      Player.updatePosition
        (Player.handleLevelBounds
          ((Player.applyGravity (mkPlayer ⟨60, 300⟩)).handleCollision emptyLevel) emptyLevel) := by
  have hfit : ((Player.applyGravity (mkPlayer ⟨60, 300⟩)).handleCollision emptyLevel).sizeX ≤
      emptyLevel.sizePixels.x := by
    rw [handleCollision_emptyLevel]
    norm_num [mkPlayer, Player.applyGravity, emptyLevel, TILE_SIZE]
  have h3 : ¬ (((Player.applyGravity (mkPlayer ⟨60, 300⟩)).handleCollision emptyLevel).pos.y -
      ((Player.applyGravity (mkPlayer ⟨60, 300⟩)).handleCollision emptyLevel).sizeY / 2 < 0) := by
    rw [handleCollision_emptyLevel]
    norm_num [mkPlayer, Player.applyGravity, TILE_SIZE]
  have h4 : ¬ (emptyLevel.sizePixels.y <
      ((Player.applyGravity (mkPlayer ⟨60, 300⟩)).handleCollision emptyLevel).pos.y +
      ((Player.applyGravity (mkPlayer ⟨60, 300⟩)).handleCollision emptyLevel).sizeY / 2) := by
    rw [handleCollision_emptyLevel]
    norm_num [mkPlayer, Player.applyGravity, emptyLevel, TILE_SIZE]
  exact ⟨hfit, (tick_order_amended emptyLevel (mkPlayer ⟨60, 300⟩) hfit h3 h4).1⟩

end Platformer
